import Mathlib

set_option maxRecDepth 100000

/-!
Verification development for the crime/weather/transit accumulation pipeline
(`finalproject.py`, `src/db_utils.py`, `src/analysis.py`, `src/fetch_*.py`).

The Python code is shallowly embedded: SQLite tables become Lists of row
structures, `INSERT OR IGNORE` becomes a conditional append keyed on the
declared UNIQUE column (SQLite treats NULL keys as pairwise distinct), and
pure helpers (`derive_crime_date`, the analysis SQL, the per-run quota
arithmetic of `main`) become Lean functions.  All string processing is done
over `List Char` with structural recursion so that every definition
evaluates inside the kernel.  SQLite REAL columns are modelled as exact
rationals; the one place this matters (the precipitation CASE thresholds)
compares against decimal constants whose floating images order the same way
as their rational values on the inputs considered.
-/

namespace Pipeline

/-! ### Basic character/string utilities (structural, kernel-evaluable) -/

/-- Split a character list at every occurrence of `sep`
(the model of Python `str.split(sep)` for a one-character separator). -/
def splitOnCharAux (sep : Char) : List Char → List Char → List (List Char)
  | [], acc => [acc.reverse]
  | c :: cs, acc =>
    if c = sep then acc.reverse :: splitOnCharAux sep cs []
    else splitOnCharAux sep cs (c :: acc)

def splitOnChar (sep : Char) (l : List Char) : List (List Char) :=
  splitOnCharAux sep l []

/-- Decimal-digit parse of a character list: the model of Python `int(s)`
restricted to plain digit strings (the only shape the pipeline feeds it;
Python additionally tolerates surrounding whitespace and an explicit sign,
which never occur in `"YYYY-MM"` month keys). -/
def digitsToNat? (l : List Char) : Option Nat :=
  if l ≠ [] ∧ l.all (fun c => c.isDigit) then
    some (l.foldl (fun a c => a * 10 + (c.toNat - 48)) 0)
  else none

/-- Lowercase hex digit, as produced by Python's `hexdigest()`. -/
def hexChar (n : Nat) : Char :=
  if n < 10 then Char.ofNat (48 + n) else Char.ofNat (87 + n)

/-- Value of one lowercase/uppercase hex digit (junk 0 elsewhere; the
pipeline only parses digits produced by `hexChar`). -/
def hexVal (c : Char) : Nat :=
  if c.isDigit then c.toNat - 48
  else if 'a' ≤ c ∧ c ≤ 'f' then c.toNat - 87
  else if 'A' ≤ c ∧ c ≤ 'F' then c.toNat - 55
  else 0

/-- The model of Python `int(s, 16)` on a hex-digit string. -/
def parseHexNat (l : List Char) : Nat :=
  l.foldl (fun a c => a * 16 + hexVal c) 0

/-- Decimal digit characters of `n` (model of Python `str(int)` for
non-negative values); fuel-structured so the kernel can evaluate it. -/
def natCharsAux : Nat → Nat → List Char → List Char
  | 0, _, acc => acc
  | fuel + 1, n, acc =>
    if n < 10 then Char.ofNat (48 + n) :: acc
    else natCharsAux fuel (n / 10) (Char.ofNat (48 + n % 10) :: acc)

def natChars (n : Nat) : List Char :=
  natCharsAux (n + 1) n []

/-- Zero-padded decimal rendering: the model of Python `f"{n:0wd}"` for
non-negative `n`. -/
def padChars (w n : Nat) : List Char :=
  let s := natChars n
  if s.length < w then List.replicate (w - s.length) '0' ++ s else s

/-- UTF-8 encoding of one character (the model of Python
`str.encode("utf-8")` applied characterwise). -/
def utf8EncodeCharNat (c : Char) : List Nat :=
  let n := c.toNat
  if n < 0x80 then [n]
  else if n < 0x800 then [0xC0 ||| (n >>> 6), 0x80 ||| (n &&& 0x3F)]
  else if n < 0x10000 then
    [0xE0 ||| (n >>> 12), 0x80 ||| ((n >>> 6) &&& 0x3F), 0x80 ||| (n &&& 0x3F)]
  else
    [0xF0 ||| (n >>> 18), 0x80 ||| ((n >>> 12) &&& 0x3F),
     0x80 ||| ((n >>> 6) &&& 0x3F), 0x80 ||| (n &&& 0x3F)]

def utf8Bytes (s : String) : List Nat :=
  (s.data.map utf8EncodeCharNat).flatten

/-! ### MD5 (RFC 1321), over `Nat` bytes/words mod 2^32

`derive_crime_date` computes `hashlib.md5(seed).hexdigest()`; this is a
faithful word-level implementation, with machine words as `Nat` reduced
modulo `2 ^ 32`. -/

def md5K : List Nat :=
  [3614090360, 3905402710, 606105819, 3250441966, 4118548399, 1200080426, 2821735955, 4249261313,
   1770035416, 2336552879, 4294925233, 2304563134, 1804603682, 4254626195, 2792965006, 1236535329,
   4129170786, 3225465664, 643717713, 3921069994, 3593408605, 38016083, 3634488961, 3889429448,
   568446438, 3275163606, 4107603335, 1163531501, 2850285829, 4243563512, 1735328473, 2368359562,
   4294588738, 2272392833, 1839030562, 4259657740, 2763975236, 1272893353, 4139469664, 3200236656,
   681279174, 3936430074, 3572445317, 76029189, 3654602809, 3873151461, 530742520, 3299628645,
   4096336452, 1126891415, 2878612391, 4237533241, 1700485571, 2399980690, 4293915773, 2240044497,
   1873313359, 4264355552, 2734768916, 1309151649, 4149444226, 3174756917, 718787259, 3951481745]

def md5S : List Nat :=
  [7, 12, 17, 22, 7, 12, 17, 22, 7, 12, 17, 22, 7, 12, 17, 22,
   5, 9, 14, 20, 5, 9, 14, 20, 5, 9, 14, 20, 5, 9, 14, 20,
   4, 11, 16, 23, 4, 11, 16, 23, 4, 11, 16, 23, 4, 11, 16, 23,
   6, 10, 15, 21, 6, 10, 15, 21, 6, 10, 15, 21, 6, 10, 15, 21]

def mask32 : Nat := 4294967295

def not32 (x : Nat) : Nat := mask32 ^^^ x

def rotl32 (x n : Nat) : Nat :=
  ((x <<< n) ||| (x >>> (32 - n))) &&& mask32

/-- MD5 padding: append `0x80`, zero-fill to 56 mod 64, then the original
bit length as 8 little-endian bytes. -/
def md5Pad (msg : List Nat) : List Nat :=
  let len := msg.length
  let zeros := (119 - len % 64) % 64
  msg ++ [128] ++ List.replicate zeros 0 ++
    (List.range 8).map (fun i => (len * 8) >>> (8 * i) &&& 255)

/-- Split a byte list into 64-byte chunks (input length is a multiple of 64
after padding); fuel-structured for kernel evaluation. -/
def chunks64Aux : Nat → List Nat → List (List Nat)
  | 0, _ => []
  | _, [] => []
  | fuel + 1, l => l.take 64 :: chunks64Aux fuel (l.drop 64)

def chunks64 (l : List Nat) : List (List Nat) :=
  chunks64Aux (l.length / 64 + 1) l

/-- Little-endian 32-bit words of one 64-byte chunk. -/
def md5Words (chunk : List Nat) : List Nat :=
  (List.range 16).map (fun j =>
    chunk.getD (4 * j) 0 + (chunk.getD (4 * j + 1) 0) <<< 8 +
    (chunk.getD (4 * j + 2) 0) <<< 16 + (chunk.getD (4 * j + 3) 0) <<< 24)

/-- One round `i` of the MD5 compression function. -/
def md5Round (M : List Nat) (st : Nat × Nat × Nat × Nat) (i : Nat) :
    Nat × Nat × Nat × Nat :=
  let a := st.1
  let b := st.2.1
  let c := st.2.2.1
  let d := st.2.2.2
  let f :=
    if i < 16 then (b &&& c) ||| (not32 b &&& d)
    else if i < 32 then (d &&& b) ||| (not32 d &&& c)
    else if i < 48 then b ^^^ c ^^^ d
    else c ^^^ (b ||| not32 d)
  let g :=
    if i < 16 then i
    else if i < 32 then (5 * i + 1) % 16
    else if i < 48 then (3 * i + 5) % 16
    else (7 * i) % 16
  let tmp := (a + f + md5K.getD i 0 + M.getD g 0) &&& mask32
  let b2 := (b + rotl32 tmp (md5S.getD i 0)) &&& mask32
  (d, b2, b, c)

def md5Chunk (st : Nat × Nat × Nat × Nat) (chunk : List Nat) :
    Nat × Nat × Nat × Nat :=
  let M := md5Words chunk
  let r := (List.range 64).foldl (md5Round M) st
  ((st.1 + r.1) &&& mask32, (st.2.1 + r.2.1) &&& mask32,
   (st.2.2.1 + r.2.2.1) &&& mask32, (st.2.2.2 + r.2.2.2) &&& mask32)

/-- Little-endian bytes of a 32-bit word. -/
def wordBytesLE (w : Nat) : List Nat :=
  [w &&& 255, (w >>> 8) &&& 255, (w >>> 16) &&& 255, (w >>> 24) &&& 255]

/-- Lowercase hex characters of the MD5 digest of a byte string: the model
of `hashlib.md5(seed).hexdigest()`. -/
def md5HexChars (msg : List Nat) : List Char :=
  let st := (chunks64 (md5Pad msg)).foldl md5Chunk
    (1732584193, 4023233417, 2562383102, 271733878)
  (([st.1, st.2.1, st.2.2.1, st.2.2.2].map wordBytesLE).flatten.map
    (fun b => [hexChar (b / 16), hexChar (b % 16)])).flatten

example : String.mk (md5HexChars (utf8Bytes "X")) =
    "02129bb861061d1a052c592e2dc6b383" := by decide
example : String.mk (md5HexChars (utf8Bytes "abc")) =
    "900150983cd24fb0d6963f7d28e17f72" := by decide
example : String.mk (md5HexChars (utf8Bytes "")) =
    "d41d8cd98f00b204e9800998ecf8427e" := by decide

/-! ### `derive_crime_date` (src/db_utils.py, lines 185-201) -/

/-- Proleptic-Gregorian leap year, as in Python's `calendar.isleap`. -/
def isLeapYear (y : Nat) : Bool :=
  y % 4 = 0 && (y % 100 ≠ 0 || y % 400 = 0)

/-- `calendar.monthrange(year, month)[1]`: number of days in the month.
Defined (positively) for every `m`; `monthrange` itself raises
`IllegalMonthError` outside `1..12`, and the theorems below only use the
valid range. -/
def daysInMonth (y m : Nat) : Nat :=
  if m = 2 then (if isLeapYear y then 29 else 28)
  else if m = 4 ∨ m = 6 ∨ m = 9 ∨ m = 11 then 30
  else 31

/-- The `year, month = map(int, month_str.split("-"))` parse (wrapped in
`try/except ValueError` in the source, so any failure becomes `none`). -/
def parseMonth (ms : String) : Option (Nat × Nat) :=
  match splitOnChar '-' ms.data with
  | [ys, mcs] =>
    match digitsToNat? ys, digitsToNat? mcs with
    | some y, some m => some (y, m)
    | _, _ => none
  | _ => none

/-- Python truthiness for an optional string argument: `None` and `""` are
falsy.  Used to model `x or y` chains over nullable string fields. -/
def strTruthy (o : Option String) : Option String :=
  match o with
  | some s => if s = "" then none else some s
  | none => none

def formatDate (y m d : Nat) : String :=
  String.mk (padChars 4 y ++ '-' :: padChars 2 m ++ '-' :: padChars 2 d)

/-- `derive_crime_date(month_str, seed_value)` (src/db_utils.py 185-201).
`month_str = None` and `month_str = ""` are both falsy (`if not month_str`);
an unparsable month is a caught `ValueError`.  `seed_value` is the already
`str()`-converted seed with Python-falsy values collapsed to `none` (the
function itself replaces a falsy seed by `f"{month_str}-seed"`).  A month
outside `1..12` would raise `IllegalMonthError` in Python (uncaught there);
it is modelled as `none` and never reached by the pipeline's callers. -/
def derive_crime_date (month_str : Option String) (seed_value : Option String) :
    Option String :=
  match month_str with
  | none => none
  | some ms =>
    if ms = "" then none
    else
      match parseMonth ms with
      | none => none
      | some (y, m) =>
        if 1 ≤ m ∧ m ≤ 12 then
          let dim := daysInMonth y m
          let seed := match strTruthy seed_value with
            | some s => s
            | none => ms ++ "-seed"
          let digest := md5HexChars (utf8Bytes seed)
          some (formatDate y m (parseHexNat (digest.take 8) % dim + 1))
        else none

example : derive_crime_date (some "2023-02") (some "X") = some "2023-02-17" := by
  decide

/-! ### Relational state (src/db_utils.py `set_up_database` schema)

Each table is a list of row structures; `INTEGER PRIMARY KEY AUTOINCREMENT`
columns are modelled by a per-table `next…` counter carried in the state.
SQLite REAL columns are exact rationals, nullable columns are `Option`. -/

structure CrimeRow where
  id : Nat
  crime_id : Option String
  persistent_id : Option String
  month : Option String
  category : Option String
  latitude : Option ℚ
  longitude : Option ℚ
  street_id : Option Int
  street_name : Option String
  outcome_category : Option String
  outcome_date : Option String
  crime_date : Option String
  location_id : Option Nat
  deriving DecidableEq

structure LocationRow where
  location_id : Nat
  city : Option String
  county : Option String
  region : Option String
  lat : Option ℚ
  lon : Option ℚ
  label : Option String
  deriving DecidableEq

structure StreetRow where
  street_id : Int
  street_name : Option String
  deriving DecidableEq

structure WeatherRow where
  weather_id : Nat
  location_id : Option Nat
  date : Option String
  temp_c : Option ℚ
  temp_min_c : Option ℚ
  temp_max_c : Option ℚ
  precip_mm : Option ℚ
  wind_speed : Option ℚ
  humidity : Option Int
  weather_main : Option String
  deriving DecidableEq

structure TransitRow where
  stop_id : Nat
  naptan_id : Option String
  common_name : Option String
  stop_type : Option String
  modes : Option String
  lat : Option ℚ
  lon : Option ℚ
  deriving DecidableEq

structure DB where
  crimeData : List CrimeRow
  locationData : List LocationRow
  streetData : List StreetRow
  weatherData : List WeatherRow
  transitStops : List TransitRow
  nextCrimeId : Nat
  nextLocationId : Nat
  nextWeatherId : Nat
  nextStopId : Nat
  deriving DecidableEq

def emptyDB : DB :=
  { crimeData := [], locationData := [], streetData := [], weatherData := [],
    transitStops := [], nextCrimeId := 1, nextLocationId := 1,
    nextWeatherId := 1, nextStopId := 1 }

/-! ### Insert / update helpers (src/db_utils.py) -/

/-- Normalized-crime dict as produced by `normalize_crime`
(src/fetch_crime.py 44-63) and consumed by `insert_crime`. -/
structure CrimeDict where
  crime_id : Option String
  persistent_id : Option String
  month : Option String
  category : Option String
  latitude : Option ℚ
  longitude : Option ℚ
  street_id : Option Int
  street_name : Option String
  outcome_category : Option String
  outcome_date : Option String
  location_id : Option Nat
  deriving DecidableEq

/-- Python `str.strip()` on the whitespace the pipeline can meet
(space/tab/newline/carriage return). -/
def isPyWs (c : Char) : Bool :=
  c = ' ' || c = '\t' || c = '\n' || c = '\r'

def pyStrip (s : String) : String :=
  String.mk (((s.data.dropWhile isPyWs).reverse.dropWhile isPyWs).reverse)

/-- SQLite `TRIM(x)`: strips space characters only. -/
def sqlTrim (s : String) : String :=
  String.mk (((s.data.dropWhile (· = ' ')).reverse.dropWhile (· = ' ')).reverse)

/-- `TRIM(COALESCE(street_name, '')) != ''` — the legacy-row test used by
`migrate_street_data`. -/
def sqlTrimNonEmpty (o : Option String) : Bool :=
  sqlTrim (o.getD "") ≠ ""

/-- The normalization at the top of `upsert_street` (db_utils.py 407-424):
`strip()` a string name, collapse `""` to NULL, pass NULL through. -/
def normStreetName (o : Option String) : Option String :=
  match o with
  | some s => if pyStrip s = "" then none else some (pyStrip s)
  | none => none

def hasStreetKey (sd : List StreetRow) (sid : Int) : Bool :=
  sd.any (fun e => e.street_id = sid)

/-- `upsert_street` (db_utils.py 407-424): `INSERT .. ON CONFLICT(street_id)
DO UPDATE SET street_name = COALESCE(excluded.street_name, street_name)`. -/
def upsert_street (db : DB) (sid : Int) (name : Option String) : DB :=
  let n := normStreetName name
  { db with streetData :=
      if hasStreetKey db.streetData sid then
        db.streetData.map (fun e =>
          if e.street_id = sid then
            { e with street_name := match n with | some v => some v | none => e.street_name }
          else e)
      else db.streetData ++ [{ street_id := sid, street_name := n }] }

/-- The `if street_id is not None: upsert_street(...)` preamble of
`insert_crime`. -/
def applyStreetUpsert (db : DB) (c : CrimeDict) : DB :=
  match c.street_id with
  | some sid => upsert_street db sid c.street_name
  | none => db

/-- The Python-`or` seed chain of `insert_crime`:
`crime_id or persistent_id or street_id or category`, collapsed to `none`
when every link is falsy (`None`, `""`, or `0`), with a truthy `street_id`
passed through `str()`. -/
def seedChain (c : CrimeDict) : Option String :=
  match strTruthy c.crime_id with
  | some s => some s
  | none =>
    match strTruthy c.persistent_id with
    | some s => some s
    | none =>
      match c.street_id with
      | some i => if i = 0 then strTruthy c.category else some (toString i)
      | none => strTruthy c.category

/-- Does a non-NULL `crime_id` already occur?  (The UNIQUE constraint on
`CrimeData.crime_id`; SQLite UNIQUE never fires on NULL keys.) -/
def crimeIdTaken (rows : List CrimeRow) (oid : Option String) : Bool :=
  match oid with
  | some s => rows.any (fun r => r.crime_id = some s)
  | none => false

def mkCrimeRow (idv : Nat) (c : CrimeDict) : CrimeRow :=
  { id := idv, crime_id := c.crime_id, persistent_id := c.persistent_id,
    month := c.month, category := c.category, latitude := c.latitude,
    longitude := c.longitude, street_id := c.street_id,
    street_name := c.street_name, outcome_category := c.outcome_category,
    outcome_date := c.outcome_date,
    crime_date := derive_crime_date c.month (seedChain c),
    location_id := c.location_id }

/-- The `INSERT OR IGNORE INTO CrimeData` statement of `insert_crime`
(ignored exactly when the non-NULL `crime_id` is already present). -/
def insertCrimeCore (db1 : DB) (c : CrimeDict) : DB :=
  if crimeIdTaken db1.crimeData c.crime_id then db1
  else
    { db1 with
      crimeData := db1.crimeData ++ [mkCrimeRow db1.nextCrimeId c],
      nextCrimeId := db1.nextCrimeId + 1 }

/-- `insert_crime` (db_utils.py 146-182): upsert the street row, derive the
crime date, then `INSERT OR IGNORE` into `CrimeData`. -/
def insert_crime (db : DB) (c : CrimeDict) : DB :=
  insertCrimeCore (applyStreetUpsert db c) c

def insertCrimeBatch (db : DB) (batch : List CrimeDict) : DB :=
  batch.foldl insert_crime db

def labelTaken (db : DB) (label : Option String) : Bool :=
  match label with
  | some l => db.locationData.any (fun r => r.label = some l)
  | none => false

/-- `SELECT location_id FROM LocationData WHERE label = ?`: first matching
row's id (a NULL parameter matches nothing in SQL). -/
def lookupLocation (db : DB) (label : Option String) : Option Nat :=
  match label with
  | some l => (db.locationData.find? (fun r => decide (r.label = some l))).map
      (fun r => r.location_id)
  | none => none

/-- `insert_location` (db_utils.py 129-143): `INSERT OR IGNORE` keyed on the
UNIQUE `label`, then select the (stable) id for that label. -/
def insert_location (db : DB) (city county region : Option String)
    (lat lon : Option ℚ) (label : Option String) : DB × Option Nat :=
  let db1 :=
    if labelTaken db label then db
    else
      { db with
        locationData := db.locationData ++
          [{ location_id := db.nextLocationId, city := city, county := county,
             region := region, lat := lat, lon := lon, label := label }],
        nextLocationId := db.nextLocationId + 1 }
  (db1, lookupLocation db1 label)

/-- The `INSERT OR IGNORE` that makes sure the shared `'Default London'`
location row exists (first statement of `assign_default_location`). -/
def ensureDefaultLocation (db : DB) (lat lon : ℚ) : DB :=
  if labelTaken db (some "Default London") then db
  else
    { db with
      locationData := db.locationData ++
        [{ location_id := db.nextLocationId, city := some "London",
           county := some "Greater London", region := some "London",
           lat := some lat, lon := some lon,
           label := some "Default London" }],
      nextLocationId := db.nextLocationId + 1 }

/-- `assign_default_location` (src/fetch_geocode.py 64-89): get-or-create the
shared `'Default London'` location, then set `location_id` on every crime
row that still has NULL.  (The dead `none` branch models the impossible
`fetchone() = None`; the theorem below shows the lookup always succeeds.) -/
def assign_default_location (db : DB)
    (lat : ℚ := 51509865/1000000) (lon : ℚ := -118092/1000000) : DB :=
  match lookupLocation (ensureDefaultLocation db lat lon) (some "Default London") with
  | some did =>
    { ensureDefaultLocation db lat lon with
      crimeData := (ensureDefaultLocation db lat lon).crimeData.map (fun r =>
        if r.location_id = none then { r with location_id := some did } else r) }
  | none => ensureDefaultLocation db lat lon

/-- `release_default_location_links` (db_utils.py 276-305): look up the
location labelled `'DEFAULT_LONDON'` (note: not the `'Default London'` label
that `assign_default_location` creates), take up to `limit` crimes linked to
it, reset their `location_id` to NULL, and return how many were reset. -/
def release_default_location_links (db : DB) (limit : Nat := 25) : DB × Nat :=
  match lookupLocation db (some "DEFAULT_LONDON") with
  | none => (db, 0)
  | some did =>
    let ids := ((db.crimeData.filter (fun r => decide (r.location_id = some did))).take
      limit).map (fun r => r.id)
    if ids = [] then (db, 0)
    else
      ({ db with crimeData := db.crimeData.map (fun r =>
          if r.id ∈ ids then { r with location_id := none } else r) },
       ids.length)

/-- Step 1 of `migrate_street_data` (db_utils.py 427-446):
`INSERT OR IGNORE INTO StreetData SELECT DISTINCT street_id, street_name
FROM CrimeData WHERE street_id IS NOT NULL AND TRIM(...) != ''`.
With `OR IGNORE` keyed on the `street_id` primary key this keeps, per new
`street_id`, the first qualifying `(street_id, street_name)` pair in scan
order (SQLite's DISTINCT ordering is unspecified; only key presence is used
by the theorems). -/
def migrateStep (sd : List StreetRow) (r : CrimeRow) : List StreetRow :=
  match r.street_id with
  | some sid =>
    if sqlTrimNonEmpty r.street_name ∧ ¬ hasStreetKey sd sid then
      sd ++ [{ street_id := sid, street_name := r.street_name }]
    else sd
  | none => sd

def migrateInsertStreets (sd : List StreetRow) (rows : List CrimeRow) :
    List StreetRow :=
  rows.foldl migrateStep sd

/-- `migrate_street_data` (db_utils.py 427-446): backfill `StreetData` from
legacy crime rows, then `UPDATE CrimeData SET street_name = NULL WHERE
TRIM(COALESCE(street_name, '')) != ''` (note: the UPDATE has no
`street_id` filter). -/
def migrate_street_data (db : DB) : DB :=
  { db with
    streetData := migrateInsertStreets db.streetData db.crimeData,
    crimeData := db.crimeData.map (fun r =>
      if sqlTrimNonEmpty r.street_name then { r with street_name := none } else r) }

/-! ### Accumulation-engine quota arithmetic (finalproject.py `main`) -/

def MIN_CRIME_ROWS : Int := 100
def MIN_LOCATION_ROWS : Int := 100
def MIN_WEATHER_ROWS : Int := 100
def MIN_TRANSIT_ROWS : Int := 100
def MAX_API_ITEMS_PER_RUN : Int := 25

/-- Crime request (finalproject.py 111-116): `fetch_limit =
min(MAX_API_ITEMS_PER_RUN, MIN_CRIME_ROWS - crime_count)` when below
target, no fetch otherwise. -/
def crimeFetchLimit (crime_count : Int) : Int :=
  if crime_count < MIN_CRIME_ROWS then
    min MAX_API_ITEMS_PER_RUN (MIN_CRIME_ROWS - crime_count)
  else 0

/-- Geocode request (finalproject.py 126-134). -/
def locationGeocodeLimit (loc_count : Int) : Int :=
  if loc_count < MIN_LOCATION_ROWS then
    min MAX_API_ITEMS_PER_RUN (MIN_LOCATION_ROWS - loc_count)
  else 0

/-- Transit request (finalproject.py 158-160). -/
def transitFetchLimit (transit_count : Int) : Int :=
  if transit_count < MIN_TRANSIT_ROWS then
    min MAX_API_ITEMS_PER_RUN (MIN_TRANSIT_ROWS - transit_count)
  else 0

/-- Weather request (finalproject.py 245-253): below target the bounded
remainder, but when the target is already met the code still requests a
full `MAX_API_ITEMS_PER_RUN` "refresh" chunk. -/
def weatherFetchLimit (weather_count : Int) : Int :=
  if weather_count < MIN_WEATHER_ROWS then
    min MAX_API_ITEMS_PER_RUN (MIN_WEATHER_ROWS - weather_count)
  else MAX_API_ITEMS_PER_RUN

/-! ### Analysis layer (src/analysis.py) -/

/-- Sorted insertion for the model of SQL `ORDER BY` / pandas
`sort_values` / sorted groupby keys (`le` need not be total-order-lawful;
only membership-preservation is used by the theorems). -/
def insertSorted (le : α → α → Bool) (x : α) : List α → List α
  | [] => [x]
  | y :: ys => if le x y then x :: y :: ys else y :: insertSorted le x ys

def sortByBool (le : α → α → Bool) (l : List α) : List α :=
  l.foldr (insertSorted le) []

/-- Lexicographic code-point comparison on strings (Python `sorted`
order for the plain-ASCII mode names involved). -/
def charListLe : List Char → List Char → Bool
  | [], _ => true
  | _ :: _, [] => false
  | a :: as, b :: bs => if a = b then charListLe as bs else decide (a < b)

def strLe (a b : String) : Bool := charListLe a.data b.data

/-- The crime-weather join predicate used by every analysis query:
`C.location_id = W.location_id AND C.crime_date = W.date` (SQL equality,
so a NULL on either side never matches). -/
def joinMatch (c : CrimeRow) (w : WeatherRow) : Bool :=
  match c.location_id, w.location_id, c.crime_date, w.date with
  | some cl, some wl, some cd, some wd => decide (cl = wl) && decide (cd = wd)
  | _, _, _, _ => false

def crimesMatchingWeather (db : DB) (w : WeatherRow) : Nat :=
  (db.crimeData.filter (fun c => joinMatch c w)).length

structure WeatherGroupRow where
  weather_main : Option String
  total_crimes : Nat
  avg_crimes_per_day : ℚ
  deriving DecidableEq

/-- The weather rows of one `GROUP BY weather_main` group. -/
def weatherGroupRows (db : DB) (k : Option String) : List WeatherRow :=
  db.weatherData.filter (fun w => decide (w.weather_main = k))

/-- `COUNT(C.id)` for one group: joined crime pairs over the LEFT JOIN, so
a category whose weather rows match no crime still yields 0, not a missing
row. -/
def weatherGroupTotal (db : DB) (k : Option String) : Nat :=
  ((weatherGroupRows db k).map (fun w => crimesMatchingWeather db w)).sum

/-- `COUNT(DISTINCT W.date)` for one group (NULL dates are not counted). -/
def weatherGroupDays (db : DB) (k : Option String) : Nat :=
  (((weatherGroupRows db k).filterMap (fun w => w.date)).dedup).length

/-- One output group of `calculate_crimes_by_weather` for the category
`k`. -/
def weatherGroupRow (db : DB) (k : Option String) : WeatherGroupRow :=
  { weather_main := k, total_crimes := weatherGroupTotal db k,
    avg_crimes_per_day :=
      if weatherGroupDays db k = 0 then 0
      else (weatherGroupTotal db k : ℚ) / (weatherGroupDays db k : ℚ) }

/-- `calculate_crimes_by_weather` (src/analysis.py 14-37): LEFT JOIN from
`WeatherData`, grouped by `weather_main` (SQL groups all NULLs together),
ordered by the average descending.  Only categories present in
`WeatherData` produce a row. -/
def calculate_crimes_by_weather (db : DB) : List WeatherGroupRow :=
  sortByBool (fun a b => decide (b.avg_crimes_per_day ≤ a.avg_crimes_per_day))
    (((db.weatherData.map (fun w => w.weather_main)).dedup).map (weatherGroupRow db))

/-- The CASE expression of `calculate_precipitation_effect`
(src/analysis.py 99-115): `WHEN precip_mm = 0 THEN 'Dry' WHEN precip_mm
BETWEEN 0.1 AND 2 THEN 'Light Rain' ELSE 'Heavy Rain'` (a NULL value falls
through both tests to the ELSE arm). -/
def rain_level (precip_mm : Option ℚ) : String :=
  match precip_mm with
  | none => "Heavy Rain"
  | some p =>
    if p = 0 then "Dry"
    else if 1/10 ≤ p ∧ p ≤ 2 then "Light Rain"
    else "Heavy Rain"

/-- `calculate_precipitation_effect` (src/analysis.py 99-115): inner-join
crime rows to weather rows, bucket each joined pair by `rain_level`, count
per bucket, order by count descending. -/
def calculate_precipitation_effect (db : DB) : List (String × Nat) :=
  let joined := (db.crimeData.map (fun c =>
    (db.weatherData.filter (fun w => joinMatch c w)).map (fun w => rain_level w.precip_mm))).flatten
  let keys := joined.dedup
  sortByBool (fun a b => decide (b.2 ≤ a.2))
    (keys.map (fun k => (k, (joined.filter (fun x => decide (x = k))).length)))

/-- `WEATHER_CODE_MAP` (src/fetch_weather.py 6-35). -/
def WEATHER_CODE_MAP : List (Nat × String) :=
  [(0, "Clear"), (1, "Mainly Clear"), (2, "Partly Cloudy"), (3, "Overcast"),
   (45, "Fog"), (48, "Fog"), (51, "Light Drizzle"), (53, "Drizzle"),
   (55, "Heavy Drizzle"), (56, "Freezing Drizzle"), (57, "Freezing Drizzle"),
   (61, "Light Rain"), (63, "Rain"), (65, "Heavy Rain"), (66, "Freezing Rain"),
   (67, "Freezing Rain"), (71, "Light Snow"), (73, "Snow"), (75, "Heavy Snow"),
   (77, "Snow Grains"), (80, "Rain Showers"), (81, "Rain Showers"),
   (82, "Heavy Rain Showers"), (85, "Snow Showers"), (86, "Heavy Snow Showers"),
   (95, "Thunderstorm"), (96, "Thunderstorm"), (99, "Thunderstorm")]

/-- `_derive_weather_main` (src/fetch_weather.py 45-48): fixed lookup with
an explicit `"Unknown"` default. -/
def derive_weather_main (code : Option Int) : String :=
  match code with
  | none => "Unknown"
  | some c => (((WEATHER_CODE_MAP.find? (fun p => decide ((p.1 : Int) = c))).map
      (fun p => p.2)).getD "Unknown")

/-- `STOP_TYPE_MODE_MAP` (src/analysis.py 118-126). -/
def STOP_TYPE_MODE_MAP : List (String × String) :=
  [("NaptanMetroStation", "tube"), ("NaptanRailStation", "rail"),
   ("NaptanBusCoachStation", "bus"), ("NaptanPublicBusCoachTram", "bus"),
   ("NaptanTramStation", "tram"), ("NaptanFerryPort", "river"),
   ("NaptanAirAccessArea", "air")]

/-- `EXPECTED_TRANSIT_MODES` (src/analysis.py 133-137):
`sorted({...} | set(STOP_TYPE_MODE_MAP.values()))`. -/
def EXPECTED_TRANSIT_MODES : List String :=
  sortByBool strLe
    ((["tube", "rail", "bus", "tram", "river", "air", "overground", "dlr",
       "coach", "river-bus", "river-tour", "cable-car", "national-rail"] ++
      STOP_TYPE_MODE_MAP.map (fun p => p.2)).dedup)

def stopTypeFallback (stop_type : Option String) : List String :=
  match stop_type with
  | some st => match (STOP_TYPE_MODE_MAP.find? (fun p => decide (p.1 = st))).map
      (fun p => p.2) with
    | some m => [m]
    | none => []
  | none => []

/-- `_split_modes` (src/analysis.py 140-153). -/
def split_modes (modes_str : Option String) (stop_type : Option String) :
    List String :=
  match strTruthy modes_str with
  | none => stopTypeFallback stop_type
  | some s =>
    let ms := ((splitOnChar ',' s.data).map (fun part =>
      pyStrip (String.mk part))).filter (fun m => decide (m ≠ ""))
    if ms = [] then stopTypeFallback stop_type else ms

/-- The bounding-box proximity join of `calculate_crimes_near_transit`
(src/analysis.py 162-177): crimes with non-NULL coordinates within 0.01° of
the stop on both axes (NULL stop coordinates match nothing in SQL). -/
def crimesNearStop (db : DB) (t : TransitRow) : Nat :=
  (db.crimeData.filter (fun c =>
    match c.latitude, c.longitude, t.lat, t.lon with
    | some clat, some clon, some tlat, some tlon =>
      decide (|clat - tlat| ≤ 1/100) && decide (|clon - tlon| ≤ 1/100)
    | _, _, _, _ => false)).length

/-- Round-half-to-even at two decimals: pandas `Series.round(2)`. -/
def roundHalfEven (x : ℚ) : Int :=
  let n := x.floor
  if x - n < 1/2 then n
  else if 1/2 < x - n then n + 1
  else if n % 2 = 0 then n else n + 1

def round2 (q : ℚ) : ℚ := (roundHalfEven (q * 100) : ℚ) / 100

structure ModeRow where
  mode : String
  crime_count : ℚ
  stop_count : Nat
  avg_crimes_per_stop : ℚ
  deriving DecidableEq

/-- The exploded `(mode, stop_id, weighted_crimes)` rows of
`calculate_crimes_near_transit`: per stop, the nearby-crime count split
evenly over its mode list (`"unknown"` when no mode resolves). -/
def transitExploded (db : DB) : List (String × Nat × ℚ) :=
  (db.transitStops.map (fun t =>
    let cc := crimesNearStop db t
    let ml := split_modes t.modes t.stop_type
    let mc : Nat := if ml = [] then 1 else ml.length
    let mlf := if ml = [] then ["unknown"] else ml
    mlf.map (fun m => (m, t.stop_id, (cc : ℚ) / (mc : ℚ))))).flatten

/-- The sorted distinct mode keys of the pandas `groupby("mode")`. -/
def transitModeKeys (db : DB) : List String :=
  sortByBool strLe (((transitExploded db).map (fun e => e.1)).dedup)

/-- Per mode key: summed weighted counts and distinct-stop count. -/
def transitGrouped0 (db : DB) : List (String × ℚ × Nat) :=
  (transitModeKeys db).map (fun m =>
    let g := (transitExploded db).filter (fun e => decide (e.1 = m))
    (m, (g.map (fun e => e.2.2)).sum, ((g.map (fun e => e.2.1)).dedup).length))

/-- The pandas `groupby("mode")` aggregation of
`calculate_crimes_near_transit`: sorted by (unrounded) count descending,
then rounded to two decimals with the per-stop average computed from the
rounded value. -/
def transitGrouped (db : DB) : List ModeRow :=
  (sortByBool (fun a b => decide (b.2.1 ≤ a.2.1)) (transitGrouped0 db)).map
    (fun g =>
      { mode := g.1, crime_count := round2 g.2.1, stop_count := g.2.2,
        avg_crimes_per_stop := round2 g.2.1 / (max g.2.2 1 : Nat) })

/-- The expected modes absent from the grouped output (the zero-fill
work list of src/analysis.py 203). -/
def transitMissing (db : DB) : List String :=
  EXPECTED_TRANSIT_MODES.filter (fun m =>
    decide (m ∉ (transitGrouped db).map (fun r => r.mode)))

/-- `calculate_crimes_near_transit` (src/analysis.py 156-214): per-stop
nearby-crime counts (an empty stop table short-circuits before any
zero-fill), modes split per stop with multi-mode stops dividing their
count evenly, grouped by mode, then the zero-fill of every expected mode
still missing and a final sort by crime count descending. -/
def calculate_crimes_near_transit (db : DB) : List ModeRow :=
  if db.transitStops = [] then []
  else if transitMissing db = [] then transitGrouped db
  else
    sortByBool (fun a b => decide (b.crime_count ≤ a.crime_count))
      (transitGrouped db ++ (transitMissing db).map (fun m =>
        { mode := m, crime_count := 0, stop_count := 0,
          avg_crimes_per_stop := 0 }))

/-! ### Source-adapter error boundaries (src/fetch_crime.py,
src/fetch_geocode.py, src/fetch_transit.py)

The network layer is modelled by an `Except String` value: `.ok` carries the
decoded upstream response, `.error` stands for a raised
`requests.RequestException` (connection failure, timeout, or the
`raise_for_status()` of a 4xx/5xx reply).  An adapter that does not catch
returns `Except.error`, i.e. the exception propagates to its caller. -/

/-- One TomTom reverse-geocode address record (the fields read by
`reverse_geocode`). -/
structure TomAddress where
  municipality : Option String
  localName : Option String
  countrySecondarySubdivision : Option String
  countrySubdivision : Option String
  freeformAddress : Option String
  deriving DecidableEq

structure GeoResponse where
  status : Nat
  addresses : List TomAddress
  deriving DecidableEq

structure GeoResult where
  city : Option String
  county : Option String
  region : Option String
  lat : ℚ
  lon : ℚ
  label : Option String
  deriving DecidableEq

/-- `reverse_geocode` (src/fetch_geocode.py 10-41).  There is no
`try/except` in the source: `resp.raise_for_status()` raises on any
4xx/5xx reply and the exception propagates (modelled by `Except.error`);
otherwise an empty `addresses` array yields `None` and a non-empty one
yields the normalized location dict. -/
def reverse_geocode (lat lon : ℚ) (resp : GeoResponse) :
    Except String (Option GeoResult) :=
  if 400 ≤ resp.status ∧ resp.status < 600 then Except.error "HTTPError"
  else
    match resp.addresses with
    | [] => Except.ok none
    | a :: _ =>
      Except.ok (some
        { city := match strTruthy a.municipality with
            | some s => some s
            | none => a.localName,
          county := a.countrySecondarySubdivision,
          region := a.countrySubdivision, lat := lat, lon := lon,
          label := a.freeformAddress })

/-- `fetch_crimes_poly` (src/fetch_crime.py 21-41): any exception from the
request is caught and the bundled `data/sample_crimes.json` content is
returned instead — a fallback payload, not a zero-result. -/
def fetch_crimes_poly (net : Except String (List α)) (sample : List α) :
    List α :=
  match net with
  | Except.ok body => body
  | Except.error _ => sample

/-- A raw TfL stop point (`None` models a falsy element, for which
`_normalize_stop` returns `None`). -/
structure RawStop where
  naptanId : Option String
  commonName : Option String
  stopType : Option String
  modes : List String
  lat : Option ℚ
  lon : Option ℚ
  deriving DecidableEq

structure TransitStopDict where
  naptan_id : Option String
  common_name : Option String
  stop_type : Option String
  modes : Option String
  lat : Option ℚ
  lon : Option ℚ
  deriving DecidableEq

def joinCommaChars : List String → List Char
  | [] => []
  | [s] => s.data
  | s :: rest => s.data ++ ',' :: joinCommaChars rest

/-- `",".join(modes)`. -/
def joinComma (l : List String) : String := String.mk (joinCommaChars l)

/-- `_normalize_stop` (src/fetch_transit.py 9-21). -/
def normalize_stop (raw : Option RawStop) : Option TransitStopDict :=
  match raw with
  | none => none
  | some r =>
    some { naptan_id := r.naptanId, common_name := r.commonName,
           stop_type := r.stopType, modes := some (joinComma r.modes),
           lat := r.lat, lon := r.lon }

def naptanTaken (db : DB) (nid : Option String) : Bool :=
  match nid with
  | some s => db.transitStops.any (fun r => r.naptan_id = some s)
  | none => false

/-- `insert_transit_stop` (db_utils.py 229-247): `INSERT OR IGNORE` keyed
on the UNIQUE `naptan_id`. -/
def insert_transit_stop (db : DB) (stop : TransitStopDict) : DB :=
  if naptanTaken db stop.naptan_id then db
  else
    { db with
      transitStops := db.transitStops ++
        [{ stop_id := db.nextStopId, naptan_id := stop.naptan_id,
           common_name := stop.common_name, stop_type := stop.stop_type,
           modes := stop.modes, lat := stop.lat, lon := stop.lon }],
      nextStopId := db.nextStopId + 1 }

structure TflResponse where
  stopPoints : List (Option RawStop)
  deriving DecidableEq

/-- `fetch_transit_stops` (src/fetch_transit.py 24-66): a
`requests.RequestException` is caught at the boundary and converted to the
zero-result `(db, 0)`; otherwise up to `max_items` normalized stops with a
truthy `naptan_id` are inserted and the attempted-insert count returned. -/
def fetch_transit_stops (net : Except String TflResponse) (db : DB)
    (max_items : Nat := 25) : DB × Nat :=
  match net with
  | Except.error _ => (db, 0)
  | Except.ok resp =>
    resp.stopPoints.foldl (fun acc raw =>
      if max_items ≤ acc.2 then acc
      else
        match normalize_stop raw with
        | some st =>
          if (strTruthy st.naptan_id).isSome then
            (insert_transit_stop acc.1 st, acc.2 + 1)
          else acc
        | none => acc) (db, 0)

/-! ## Shared helper lemmas -/

theorem crimeData_applyStreetUpsert (db : DB) (c : CrimeDict) :
    (applyStreetUpsert db c).crimeData = db.crimeData := by
  cases h : c.street_id <;> simp [applyStreetUpsert, upsert_street, h]

theorem nextCrimeId_applyStreetUpsert (db : DB) (c : CrimeDict) :
    (applyStreetUpsert db c).nextCrimeId = db.nextCrimeId := by
  cases h : c.street_id <;> simp [applyStreetUpsert, upsert_street, h]

theorem crimeData_insert_crime (db : DB) (c : CrimeDict) :
    (insert_crime db c).crimeData =
      if crimeIdTaken db.crimeData c.crime_id then db.crimeData
      else db.crimeData ++ [mkCrimeRow db.nextCrimeId c] := by
  unfold insert_crime insertCrimeCore
  rw [crimeData_applyStreetUpsert]
  split_ifs with h
  · exact crimeData_applyStreetUpsert db c
  · simp [crimeData_applyStreetUpsert, nextCrimeId_applyStreetUpsert]

theorem lookupLocation_isSome_of_label {db : DB} {l : String}
    (h : ∃ r ∈ db.locationData, r.label = some l) :
    ∃ i, lookupLocation db (some l) = some i := by
  obtain ⟨r, hr, hl⟩ := h
  have hf : (db.locationData.find? (fun r => decide (r.label = some l))).isSome := by
    exact List.find?_isSome.mpr ⟨r, hr, by simp [hl]⟩
  obtain ⟨y, hy⟩ := Option.isSome_iff_exists.mp hf
  exact ⟨y.location_id, by simp [lookupLocation, hy]⟩

/-! ## C3 — per-source request amounts -/

/-- C3 counterexample: the claim says every source requests
`min(B, max(0, T - current))`, "including when the table's target is
already met"; but the weather branch of `main` (finalproject.py 245-253)
requests a full `MAX_API_ITEMS_PER_RUN` refresh chunk when
`weather_count = MIN_WEATHER_ROWS`, where the claimed formula gives 0. -/
theorem requestAmount_weather_met_ne_spec :
    weatherFetchLimit 100 ≠ min MAX_API_ITEMS_PER_RUN (max 0 (MIN_WEATHER_ROWS - 100)) := by
  decide

/-- C3 amended: the crime, location and transit requests equal
`min(B, max(0, T - current))` (hence are never negative and never exceed
the budget), and the weather request equals that formula only below target,
being a fixed `MAX_API_ITEMS_PER_RUN` refresh batch once the target is
met. -/
theorem requestAmount_formula (c : Int) :
    crimeFetchLimit c = min MAX_API_ITEMS_PER_RUN (max 0 (MIN_CRIME_ROWS - c)) ∧
    locationGeocodeLimit c = min MAX_API_ITEMS_PER_RUN (max 0 (MIN_LOCATION_ROWS - c)) ∧
    transitFetchLimit c = min MAX_API_ITEMS_PER_RUN (max 0 (MIN_TRANSIT_ROWS - c)) ∧
    weatherFetchLimit c =
      (if c < MIN_WEATHER_ROWS then
        min MAX_API_ITEMS_PER_RUN (max 0 (MIN_WEATHER_ROWS - c))
      else MAX_API_ITEMS_PER_RUN) ∧
    0 ≤ crimeFetchLimit c ∧ 0 ≤ locationGeocodeLimit c ∧
    0 ≤ transitFetchLimit c ∧ 0 ≤ weatherFetchLimit c := by
  simp only [crimeFetchLimit, locationGeocodeLimit, transitFetchLimit,
    weatherFetchLimit, MIN_CRIME_ROWS, MIN_LOCATION_ROWS, MIN_TRANSIT_ROWS,
    MIN_WEATHER_ROWS, MAX_API_ITEMS_PER_RUN]
  split_ifs <;> omega

/-! ## C4 — default-location coverage -/

/-- C4: after `assign_default_location` completes, no `CrimeData` row has a
NULL `location_id`: the shared `'Default London'` location is created if
absent, its id is always found, and every NULL link is overwritten with
it. -/
theorem assign_default_location_covers (db : DB) (lat lon : ℚ) :
    ∀ r ∈ (assign_default_location db lat lon).crimeData, r.location_id ≠ none := by
  have hex : ∃ r ∈ (ensureDefaultLocation db lat lon).locationData,
      r.label = some "Default London" := by
    unfold ensureDefaultLocation
    split_ifs with h
    · obtain ⟨r, hr, hl⟩ := List.any_eq_true.mp h
      exact ⟨r, hr, by simpa using hl⟩
    · exact ⟨_, List.mem_append_right _ (List.mem_singleton_self _), rfl⟩
  obtain ⟨i, hi⟩ := lookupLocation_isSome_of_label hex
  unfold assign_default_location
  rw [hi]
  intro r hr
  obtain ⟨r0, _, rfl⟩ := List.mem_map.mp hr
  split_ifs with h0
  · simp
  · exact h0

/-! ## C5 — releasing fallback-linked crimes -/

/-- A crime row that could not be geocoded (no coordinates, no link);
also reused by other concrete evaluations below. -/
def c5Row : CrimeRow :=
  { id := 1, crime_id := some "c1", persistent_id := none,
    month := none, category := none, latitude := none, longitude := none,
    street_id := none, street_name := none, outcome_category := none,
    outcome_date := none, crime_date := none, location_id := none }

/-- A database holding one crime row that could not be geocoded. -/
def c5Base : DB :=
  { emptyDB with crimeData := [c5Row] }

/-- Witness for `assign_default_location_covers`: the concrete unlinked
crime of `c5Base` comes out of the fallback-assignment step linked to the
default location (id 1), hence non-NULL. -/
theorem assign_default_location_covers_witness :
    ({ c5Row with location_id := some 1 } : CrimeRow).location_id ≠ none :=
  assign_default_location_covers c5Base 0 0 _ (by decide)

/-- `c5Base` after the fallback-assignment step: its single crime is linked
to the shared `'Default London'` location (which got `location_id = 1`). -/
def c5Db : DB := assign_default_location c5Base

/-- C5: the code contradicts the claim (and its caller's intent).
`assign_default_location` labels the shared fallback `'Default London'`,
but `release_default_location_links` searches for the label
`'DEFAULT_LONDON'`, which nothing ever creates.  On a database whose only
crime is linked to the fallback, the release call returns 0 and resets
nothing, so the crime stays on the fallback location. -/
theorem release_default_location_links_never_releases :
    (release_default_location_links c5Db 25).2 = 0 ∧
    (release_default_location_links c5Db 25).1.crimeData.map (fun r => r.location_id) =
      [some 1] ∧
    c5Db.crimeData.map (fun r => r.location_id) = [some 1] ∧
    c5Db.locationData.map (fun r => r.label) = [some "Default London"] := by
  refine ⟨?_, ?_, ?_, ?_⟩ <;> decide

/-! ## C6 — precipitation bands -/

/-- C6 counterexample: the claim puts every `precip_mm` in `(0, 2]` in the
light band, but the SQL `BETWEEN 0.1 AND 2` classifies `precip_mm = 0.05`
(which lies in `(0, 2]`) as `'Heavy Rain'`. -/
theorem rain_level_small_positive_is_heavy :
    (0 < (1/20 : ℚ) ∧ (1/20 : ℚ) ≤ 2) ∧
    rain_level (some (1/20)) = "Heavy Rain" ∧
    rain_level (some (1/20)) ≠ "Light Rain" := by
  have h0 : ¬ ((1/20 : ℚ) = 0) := by norm_num
  have h1 : ¬ ((1/10 : ℚ) ≤ 1/20 ∧ (1/20 : ℚ) ≤ 2) := by
    rintro ⟨h, -⟩; norm_num at h
  have hv : rain_level (some (1/20)) = "Heavy Rain" := by
    simp only [rain_level]
    rw [if_neg h0, if_neg h1]
  refine ⟨⟨by norm_num, by norm_num⟩, hv, ?_⟩
  rw [hv]
  decide

/-- C6 amended: for non-negative precipitation the three bands are
`'Dry'` exactly at 0, `'Light Rain'` exactly on `[0.1, 2]`, and
`'Heavy Rain'` exactly on `(0, 0.1) ∪ (2, ∞)` — the sub-0.1 drizzle range
lands in the heavy band, not the light one. -/
theorem rain_level_bands (p : ℚ) (hp : 0 ≤ p) :
    (rain_level (some p) = "Dry" ↔ p = 0) ∧
    (rain_level (some p) = "Light Rain" ↔ 1/10 ≤ p ∧ p ≤ 2) ∧
    (rain_level (some p) = "Heavy Rain" ↔ (0 < p ∧ p < 1/10) ∨ 2 < p) := by
  simp only [rain_level]
  split_ifs with h1 h2
  · subst h1
    refine ⟨iff_of_true rfl rfl, ?_, ?_⟩
    · refine iff_of_false (by decide) ?_
      rintro ⟨h, -⟩; norm_num at h
    · refine iff_of_false (by decide) ?_
      rintro (⟨h, -⟩ | h) <;> norm_num at h
  · refine ⟨iff_of_false (by decide) h1, iff_of_true rfl h2, ?_⟩
    refine iff_of_false (by decide) ?_
    rintro (⟨-, h4⟩ | h3)
    · linarith [h2.1]
    · linarith [h2.2]
  · have hpos : 0 < p := lt_of_le_of_ne hp (fun h => h1 h.symm)
    refine ⟨iff_of_false (by decide) h1, iff_of_false (by decide) h2, ?_⟩
    refine iff_of_true rfl ?_
    rcases not_and_or.mp h2 with h3 | h4
    · exact Or.inl ⟨hpos, not_le.mp h3⟩
    · exact Or.inr (not_le.mp h4)

/-- Witness for `rain_level_bands` at `p = 1`. -/
theorem rain_level_bands_witness :
    (0 ≤ (1 : ℚ)) ∧ (rain_level (some 1) = "Light Rain" ↔ 1/10 ≤ (1 : ℚ) ∧ (1 : ℚ) ≤ 2) :=
  ⟨by norm_num, (rain_level_bands 1 (by norm_num)).2.1⟩

/-! ## C10 — NULL external ids are never deduplicated -/

/-- C10: the UNIQUE constraint on `crime_id` never fires for NULL keys, so
every `insert_crime` of a dict with `crime_id = None` appends a fresh
`CrimeData` row; two inserts of the same NULL-id payload add two rows. -/
theorem insert_crime_null_id_always_inserts (db : DB) (c : CrimeDict)
    (h : c.crime_id = none) :
    (insert_crime (insert_crime db c) c).crimeData.length =
      db.crimeData.length + 2 := by
  have h1 := crimeData_insert_crime db c
  have h2 := crimeData_insert_crime (insert_crime db c) c
  rw [h] at h1 h2
  simp only [crimeIdTaken, Bool.false_eq_true, if_false] at h1 h2
  rw [h2, h1]
  simp [List.length_append]

/-- Witness for `insert_crime_null_id_always_inserts`: a concrete NULL-id
crime dict inserted twice into the empty database yields two rows. -/
def c10Dict : CrimeDict :=
  { crime_id := none, persistent_id := none, month := none, category := none,
    latitude := none, longitude := none, street_id := none,
    street_name := none, outcome_category := none, outcome_date := none,
    location_id := none }

theorem insert_crime_null_id_always_inserts_witness :
    (insert_crime (insert_crime emptyDB c10Dict) c10Dict).crimeData.length =
      emptyDB.crimeData.length + 2 :=
  insert_crime_null_id_always_inserts emptyDB c10Dict rfl

/-! ## C2 — duplicate external ids are dropped; re-runs add nothing -/

theorem crimeIdTaken_append_left (rows extra : List CrimeRow) (oid : Option String)
    (h : crimeIdTaken rows oid = true) :
    crimeIdTaken (rows ++ extra) oid = true := by
  cases oid with
  | none => exact h
  | some s =>
    simp only [crimeIdTaken, List.any_append, Bool.or_eq_true] at h ⊢
    exact Or.inl h

theorem crimeIdTaken_insert_mono (db : DB) (c : CrimeDict) (oid : Option String)
    (h : crimeIdTaken db.crimeData oid = true) :
    crimeIdTaken (insert_crime db c).crimeData oid = true := by
  rw [crimeData_insert_crime]
  split_ifs with ht
  · exact h
  · exact crimeIdTaken_append_left _ _ _ h

theorem crimeIdTaken_insert_self (db : DB) (c : CrimeDict) (i : String)
    (hc : c.crime_id = some i) :
    crimeIdTaken (insert_crime db c).crimeData (some i) = true := by
  rw [crimeData_insert_crime]
  split_ifs with ht
  · rw [hc] at ht; exact ht
  · simp only [crimeIdTaken, List.any_append, List.any_cons, List.any_nil,
      Bool.or_eq_true]
    exact Or.inr (Or.inl (by simp [mkCrimeRow, hc]))

theorem crimeIdTaken_batch_mono (batch : List CrimeDict) (db : DB)
    (oid : Option String) (h : crimeIdTaken db.crimeData oid = true) :
    crimeIdTaken (insertCrimeBatch db batch).crimeData oid = true := by
  induction batch generalizing db with
  | nil => exact h
  | cons c rest ih =>
    exact ih (insert_crime db c) (crimeIdTaken_insert_mono db c oid h)

theorem crimeIdTaken_batch_self (batch : List CrimeDict) (db : DB)
    (c : CrimeDict) (i : String) (hm : c ∈ batch) (hc : c.crime_id = some i) :
    crimeIdTaken (insertCrimeBatch db batch).crimeData (some i) = true := by
  induction batch generalizing db with
  | nil => cases hm
  | cons d rest ih =>
    rcases List.mem_cons.mp hm with rfl | hmem
    · exact crimeIdTaken_batch_mono rest _ _ (crimeIdTaken_insert_self db c i hc)
    · exact ih (insert_crime db d) hmem

theorem insert_crime_noop_of_taken (db : DB) (c : CrimeDict)
    (h : crimeIdTaken db.crimeData c.crime_id = true) :
    (insert_crime db c).crimeData = db.crimeData := by
  rw [crimeData_insert_crime, if_pos h]

theorem insertCrimeBatch_noop_of_taken (batch : List CrimeDict) (db : DB)
    (h : ∀ c ∈ batch, crimeIdTaken db.crimeData c.crime_id = true) :
    (insertCrimeBatch db batch).crimeData = db.crimeData := by
  induction batch generalizing db with
  | nil => rfl
  | cons c rest ih =>
    have hd : (insert_crime db c).crimeData = db.crimeData :=
      insert_crime_noop_of_taken db c (h c (List.mem_cons_self c rest))
    have := ih (insert_crime db c) (fun d hd2 => by
      rw [hd]; exact h d (List.mem_cons_of_mem c hd2))
    simpa [insertCrimeBatch, hd] using this

/-- C2: inserting the batch `[A, B, A]` (A's non-NULL `crime_id`
duplicated, distinct from B's) into an empty database stores exactly two
`CrimeData` rows, and re-running the identical batch over any database
leaves the `CrimeData` row count unchanged — duplicates are dropped by the
`INSERT OR IGNORE` against the UNIQUE `crime_id`, never raising. -/
theorem insert_crime_batch_dedups_and_rerun_stable (A B : CrimeDict)
    (ia ib : String) (hA : A.crime_id = some ia) (hB : B.crime_id = some ib)
    (hne : ia ≠ ib) :
    (insertCrimeBatch emptyDB [A, B, A]).crimeData.length = 2 ∧
    ∀ db : DB,
      (insertCrimeBatch (insertCrimeBatch db [A, B, A]) [A, B, A]).crimeData.length =
        (insertCrimeBatch db [A, B, A]).crimeData.length := by
  constructor
  · have t0 : crimeIdTaken emptyDB.crimeData A.crime_id = false := by
      rw [hA]; rfl
    have d1 : (insert_crime emptyDB A).crimeData = [mkCrimeRow 1 A] := by
      rw [crimeData_insert_crime, t0]
      rfl
    have t1 : crimeIdTaken (insert_crime emptyDB A).crimeData B.crime_id = false := by
      rw [d1, hB]
      simp only [crimeIdTaken, List.any_cons, List.any_nil, Bool.or_false,
        mkCrimeRow, hA]
      simp only [Option.some.injEq, decide_eq_false_iff_not]
      exact fun h => hne h
    have d2 : (insert_crime (insert_crime emptyDB A) B).crimeData =
        [mkCrimeRow 1 A] ++ [mkCrimeRow (insert_crime emptyDB A).nextCrimeId B] := by
      rw [crimeData_insert_crime, t1, d1]
      simp
    have t2 : crimeIdTaken (insert_crime (insert_crime emptyDB A) B).crimeData
        A.crime_id = true := by
      rw [d2, hA]
      simp [crimeIdTaken, mkCrimeRow, hA]
    show (insert_crime (insert_crime (insert_crime emptyDB A) B) A).crimeData.length = 2
    rw [insert_crime_noop_of_taken _ _ t2, d2]
    rfl
  · intro db
    have hall : ∀ c ∈ [A, B, A],
        crimeIdTaken (insertCrimeBatch db [A, B, A]).crimeData c.crime_id = true := by
      intro c hc
      rcases List.mem_cons.mp hc with rfl | hc2
      · rw [hA]; exact crimeIdTaken_batch_self _ db c ia (by simp) hA
      rcases List.mem_cons.mp hc2 with rfl | hc3
      · rw [hB]; exact crimeIdTaken_batch_self _ db c ib (by simp) hB
      rcases List.mem_cons.mp hc3 with rfl | hc4
      · rw [hA]; exact crimeIdTaken_batch_self _ db c ia (by simp) hA
      · cases hc4
    rw [insertCrimeBatch_noop_of_taken _ _ hall]

/-- Witness for `insert_crime_batch_dedups_and_rerun_stable` on two
concrete crime dicts with ids `"a"` and `"b"`. -/
def c2DictA : CrimeDict :=
  { c10Dict with crime_id := some "a" }

def c2DictB : CrimeDict :=
  { c10Dict with crime_id := some "b" }

theorem insert_crime_batch_dedups_witness :
    (insertCrimeBatch emptyDB [c2DictA, c2DictB, c2DictA]).crimeData.length = 2 ∧
    (insertCrimeBatch (insertCrimeBatch emptyDB [c2DictA, c2DictB, c2DictA])
        [c2DictA, c2DictB, c2DictA]).crimeData.length =
      (insertCrimeBatch emptyDB [c2DictA, c2DictB, c2DictA]).crimeData.length := by
  obtain ⟨h1, h2⟩ := insert_crime_batch_dedups_and_rerun_stable c2DictA c2DictB
    "a" "b" rfl rfl (by decide)
  exact ⟨h1, h2 emptyDB⟩

/-! ## C9 — street-metadata migration -/

theorem hasStreetKey_append_left (sd extra : List StreetRow) (sid : Int)
    (h : hasStreetKey sd sid = true) :
    hasStreetKey (sd ++ extra) sid = true := by
  simp only [hasStreetKey, List.any_append, Bool.or_eq_true] at h ⊢
  exact Or.inl h

theorem hasStreetKey_migrateStep_mono (sd : List StreetRow) (r : CrimeRow)
    (sid : Int) (h : hasStreetKey sd sid = true) :
    hasStreetKey (migrateStep sd r) sid = true := by
  cases hs : r.street_id with
  | none => simpa [migrateStep, hs] using h
  | some sid2 =>
    simp only [migrateStep, hs]
    split_ifs with hc
    · exact hasStreetKey_append_left _ _ _ h
    · exact h

theorem hasStreetKey_fold_mono (rows : List CrimeRow) (sd : List StreetRow)
    (sid : Int) (h : hasStreetKey sd sid = true) :
    hasStreetKey (rows.foldl migrateStep sd) sid = true := by
  induction rows generalizing sd with
  | nil => exact h
  | cons r rest ih => exact ih _ (hasStreetKey_migrateStep_mono sd r sid h)

theorem hasStreetKey_migrateStep_self (sd : List StreetRow) (r : CrimeRow)
    (sid : Int) (hs : r.street_id = some sid)
    (hn : sqlTrimNonEmpty r.street_name = true) :
    hasStreetKey (migrateStep sd r) sid = true := by
  simp only [migrateStep, hs]
  split_ifs with hc
  · simp [hasStreetKey, List.any_append]
  · rw [hn] at hc
    by_contra hk
    exact hc ⟨rfl, hk⟩

theorem hasStreetKey_fold_self (rows : List CrimeRow) (sd : List StreetRow)
    (r : CrimeRow) (sid : Int) (hm : r ∈ rows) (hs : r.street_id = some sid)
    (hn : sqlTrimNonEmpty r.street_name = true) :
    hasStreetKey (rows.foldl migrateStep sd) sid = true := by
  induction rows generalizing sd with
  | nil => cases hm
  | cons d rest ih =>
    rcases List.mem_cons.mp hm with rfl | hmem
    · exact hasStreetKey_fold_mono rest _ sid
        (hasStreetKey_migrateStep_self sd r sid hs hn)
    · exact ih (migrateStep sd d) hmem

/-- C9 amended: after `migrate_street_data`, (a) every crime row that had a
non-NULL `street_id` and a non-blank `street_name` has its `street_id`
present in `StreetData` (the name kept is the first one seen for that key,
and a key already present keeps its old name); (b) no crime row retains a
non-blank `street_name` — including rows with a NULL `street_id`, whose
names are simply discarded; and (c) the migration is a no-op when no crime
row has a non-blank `street_name`. -/
theorem migrate_street_data_amended (db : DB) :
    (∀ r ∈ db.crimeData, ∀ sid : Int, r.street_id = some sid →
      sqlTrimNonEmpty r.street_name = true →
      hasStreetKey (migrate_street_data db).streetData sid = true) ∧
    (∀ r ∈ (migrate_street_data db).crimeData,
      sqlTrimNonEmpty r.street_name = false) ∧
    ((∀ r ∈ db.crimeData, sqlTrimNonEmpty r.street_name = false) →
      migrate_street_data db = db) := by
  refine ⟨?_, ?_, ?_⟩
  · intro r hr sid hs hn
    exact hasStreetKey_fold_self db.crimeData db.streetData r sid hr hs hn
  · intro r hr
    obtain ⟨r0, _, rfl⟩ := List.mem_map.mp hr
    split_ifs with h0
    · rfl
    · exact eq_false_of_ne_true h0
  · intro hall
    have hfold : migrateInsertStreets db.streetData db.crimeData = db.streetData := by
      unfold migrateInsertStreets
      have : ∀ rows : List CrimeRow,
          (∀ r ∈ rows, sqlTrimNonEmpty r.street_name = false) →
          ∀ sd : List StreetRow, rows.foldl migrateStep sd = sd := by
        intro rows hrows
        induction rows with
        | nil => intro sd; rfl
        | cons r rest ih =>
          intro sd
          have hstep : migrateStep sd r = sd := by
            cases hs : r.street_id with
            | none => simp [migrateStep, hs]
            | some sid =>
              simp only [migrateStep, hs]
              rw [if_neg]
              rintro ⟨h1, -⟩
              rw [hrows r (List.mem_cons_self r rest)] at h1
              cases h1
          rw [List.foldl_cons, hstep]
          exact ih (fun d hd => hrows d (List.mem_cons_of_mem r hd)) sd
      exact this db.crimeData hall db.streetData
    have hmap : db.crimeData.map (fun r =>
        if sqlTrimNonEmpty r.street_name then { r with street_name := none } else r) =
        db.crimeData := by
      have : ∀ r ∈ db.crimeData, (if sqlTrimNonEmpty r.street_name then
          { r with street_name := none } else r) = r := by
        intro r hr
        rw [if_neg]
        rw [hall r hr]
        exact Bool.false_ne_true
      rw [List.map_congr_left this]
      simp
    show { db with
      streetData := migrateInsertStreets db.streetData db.crimeData,
      crimeData := db.crimeData.map _ } = db
    rw [hfold, hmap]

/-- A legacy crime row carrying a street name but no street id. -/
def c9Row : CrimeRow :=
  { id := 1, crime_id := some "c9", persistent_id := none, month := none,
    category := none, latitude := none, longitude := none, street_id := none,
    street_name := some "Baker Street", outcome_category := none,
    outcome_date := none, crime_date := none, location_id := none }

def c9Db : DB := { emptyDB with crimeData := [c9Row] }

/-- C9 counterexample: on a database whose one crime row has a non-empty
`street_name` but a NULL `street_id`, `migrate_street_data` nulls the
crime row's `street_name` while inserting nothing into `StreetData` — the
street name "Baker Street" is lost outright, contradicting the claimed
no-data-loss guarantee for every non-empty street name. -/
theorem migrate_street_data_loses_unkeyed_name :
    c9Row.street_name = some "Baker Street" ∧
    (migrate_street_data c9Db).streetData = [] ∧
    (migrate_street_data c9Db).crimeData.map (fun r => r.street_name) = [none] := by
  refine ⟨rfl, ?_, ?_⟩ <;> decide

/-- Witness for `migrate_street_data_amended`: a keyed legacy row gets its
street id recorded, and the migration is a no-op on the empty database. -/
def c9WitRow : CrimeRow :=
  { c9Row with street_id := some 7, street_name := some "High Street" }

def c9WitDb : DB := { emptyDB with crimeData := [c9WitRow] }

theorem migrate_street_data_amended_witness :
    hasStreetKey (migrate_street_data c9WitDb).streetData 7 = true ∧
    migrate_street_data emptyDB = emptyDB :=
  ⟨(migrate_street_data_amended c9WitDb).1 c9WitRow
    (List.mem_singleton_self c9WitRow) 7 rfl (by decide),
   (migrate_street_data_amended emptyDB).2.2 (fun r hr => absurd hr (by simp [emptyDB]))⟩

/-! ## C7 — zero-fill completeness of grouped outputs -/

theorem mem_insertSorted {α : Type} (le : α → α → Bool) (x a : α)
    (l : List α) : a ∈ insertSorted le x l ↔ a = x ∨ a ∈ l := by
  induction l with
  | nil => simp [insertSorted]
  | cons y ys ih =>
    unfold insertSorted
    split_ifs
    · simp [List.mem_cons]
    · simp only [List.mem_cons, ih]
      tauto

theorem mem_sortByBool {α : Type} (le : α → α → Bool) (a : α) (l : List α) :
    a ∈ sortByBool le l ↔ a ∈ l := by
  induction l with
  | nil => simp [sortByBool]
  | cons x xs ih =>
    show a ∈ insertSorted le x (sortByBool le xs) ↔ a ∈ x :: xs
    rw [mem_insertSorted, ih, List.mem_cons]

theorem insertSorted_perm {α : Type} (le : α → α → Bool) (x : α)
    (l : List α) : List.Perm (insertSorted le x l) (x :: l) := by
  induction l with
  | nil => exact List.Perm.refl _
  | cons y ys ih =>
    unfold insertSorted
    split_ifs
    · exact List.Perm.refl _
    · exact (List.Perm.cons y ih).trans (List.Perm.swap x y ys)

theorem sortByBool_perm {α : Type} (le : α → α → Bool) (l : List α) :
    List.Perm (sortByBool le l) l := by
  induction l with
  | nil => exact List.Perm.refl _
  | cons x xs ih =>
    exact (insertSorted_perm le x (sortByBool le xs)).trans (List.Perm.cons x ih)

theorem map_fun_id {α : Type} (l : List α) : l.map (fun a => a) = l := by
  induction l with
  | nil => rfl
  | cons x xs ih => simp [ih]

/-- The modes of the grouped transit rows are, up to order, exactly the
distinct modes occurring in the exploded stop/mode table. -/
theorem transitGrouped_modes_perm (db : DB) :
    List.Perm ((transitGrouped db).map (fun r => r.mode))
      (((transitExploded db).map (fun e => e.1)).dedup) := by
  have e1 : (transitGrouped db).map (fun r => r.mode) =
      (sortByBool (fun a b => decide (b.2.1 ≤ a.2.1)) (transitGrouped0 db)).map
        (fun g => g.1) := by
    unfold transitGrouped
    rw [List.map_map]
    exact List.map_congr_left (fun g _ => rfl)
  have e2 : (transitGrouped0 db).map (fun g => g.1) = transitModeKeys db := by
    unfold transitGrouped0
    rw [List.map_map]
    exact (List.map_congr_left (fun m _ => rfl)).trans (map_fun_id _)
  have h1 := (sortByBool_perm (fun a b => decide (b.2.1 ≤ a.2.1))
    (transitGrouped0 db)).map (fun g => g.1)
  rw [e2] at h1
  rw [e1]
  exact h1.trans (sortByBool_perm strLe _)

/-- The categories of the weather grouping are, up to order, exactly the
distinct `weather_main` values present in `WeatherData` — so a category
absent from `WeatherData` gets no row, a present one exactly one. -/
theorem calculate_crimes_by_weather_keys_perm (db : DB) :
    List.Perm ((calculate_crimes_by_weather db).map (fun r => r.weather_main))
      ((db.weatherData.map (fun w => w.weather_main)).dedup) := by
  have e : ((((db.weatherData.map (fun w => w.weather_main)).dedup).map
      (weatherGroupRow db)).map (fun r => r.weather_main)) =
      (db.weatherData.map (fun w => w.weather_main)).dedup := by
    rw [List.map_map]
    exact (List.map_congr_left (fun k _ => rfl)).trans (map_fun_id _)
  have h1 := (sortByBool_perm
    (fun a b => decide (b.avg_crimes_per_day ≤ a.avg_crimes_per_day))
    (((db.weatherData.map (fun w => w.weather_main)).dedup).map
      (weatherGroupRow db))).map (fun r => r.weather_main)
  rw [e] at h1
  exact h1

/-- C7 counterexample: on empty underlying tables both grouped outputs are
empty — in particular the static weather category `"Clear"` (resp. the
expected transit mode `"tube"`) has no zero-filled row, contrary to the
claim "including when the underlying tables are empty". -/
theorem grouped_outputs_empty_on_empty_tables :
    "Clear" ∈ WEATHER_CODE_MAP.map (fun p => p.2) ∧
    calculate_crimes_by_weather emptyDB = [] ∧
    "tube" ∈ EXPECTED_TRANSIT_MODES ∧
    calculate_crimes_near_transit emptyDB = [] := by
  refine ⟨by decide, by decide, by decide, by decide⟩

/-- C7 amended: (i) the weather grouping has, up to order, exactly one row
per distinct `weather_main` present in `WeatherData` — so a present
category gets exactly one row and an absent one none; (ii) a weather row
whose category no crime joins to is zero-filled (`total_crimes = 0` and
zero average) by the LEFT JOIN; (iii) whenever at least one transit stop
is stored, every expected transit mode has a row, and a mode with no
grouped data gets exactly the zero-filled filler row `(mo, 0, 0, 0)`;
(iv) the transit output never carries two rows for one mode; (v) on empty
underlying tables both outputs are empty rather than zero-filled. -/
theorem grouped_outputs_zero_fill (db : DB) :
    List.Perm ((calculate_crimes_by_weather db).map (fun r => r.weather_main))
      ((db.weatherData.map (fun w => w.weather_main)).dedup) ∧
    (∀ r ∈ calculate_crimes_by_weather db,
      (∀ c ∈ db.crimeData, ∀ w ∈ db.weatherData,
        w.weather_main = r.weather_main → joinMatch c w = false) →
      r.total_crimes = 0 ∧ r.avg_crimes_per_day = 0) ∧
    (db.transitStops ≠ [] → ∀ mo ∈ EXPECTED_TRANSIT_MODES,
      (∃ r ∈ calculate_crimes_near_transit db, r.mode = mo) ∧
      (mo ∉ (transitGrouped db).map (fun r => r.mode) →
        (⟨mo, 0, 0, 0⟩ : ModeRow) ∈ calculate_crimes_near_transit db)) ∧
    ((calculate_crimes_near_transit db).map (fun r => r.mode)).Nodup ∧
    calculate_crimes_by_weather emptyDB = [] ∧
    calculate_crimes_near_transit emptyDB = [] := by
  refine ⟨calculate_crimes_by_weather_keys_perm db, ?_, ?_, ?_, by decide, by decide⟩
  · intro r hr hnc
    obtain ⟨k, hk, rfl⟩ := List.mem_map.mp ((mem_sortByBool _ _ _).mp hr)
    rw [show (weatherGroupRow db k).weather_main = k from rfl] at hnc
    have htot : weatherGroupTotal db k = 0 := by
      apply List.sum_eq_zero
      intro x hx
      obtain ⟨w, hw, rfl⟩ := List.mem_map.mp hx
      obtain ⟨hw1, hw2⟩ := List.mem_filter.mp hw
      have hw3 : w.weather_main = k := of_decide_eq_true hw2
      show (db.crimeData.filter (fun c => joinMatch c w)).length = 0
      rw [List.length_eq_zero]
      apply List.filter_eq_nil_iff.mpr
      intro c hc
      rw [hnc c hc w hw1 hw3]
      exact Bool.false_ne_true
    refine ⟨htot, ?_⟩
    show (if weatherGroupDays db k = 0 then (0 : ℚ)
      else (weatherGroupTotal db k : ℚ) / (weatherGroupDays db k : ℚ)) = 0
    rw [htot]
    split_ifs <;> simp
  · intro hne mo hmo
    by_cases hm : mo ∈ (transitGrouped db).map (fun r => r.mode)
    · refine ⟨?_, fun hn => absurd hm hn⟩
      obtain ⟨r, hr, hrm⟩ := List.mem_map.mp hm
      simp only [calculate_crimes_near_transit, if_neg hne]
      split_ifs with hmiss
      · exact ⟨r, hr, hrm⟩
      · exact ⟨r, (mem_sortByBool _ _ _).mpr (List.mem_append_left _ hr), hrm⟩
    · have hmiss2 : mo ∈ transitMissing db :=
        List.mem_filter.mpr ⟨hmo, decide_eq_true hm⟩
      have hfill : (⟨mo, 0, 0, 0⟩ : ModeRow) ∈ calculate_crimes_near_transit db := by
        simp only [calculate_crimes_near_transit, if_neg hne]
        split_ifs with hmiss
        · rw [hmiss] at hmiss2
          cases hmiss2
        · exact (mem_sortByBool _ _ _).mpr
            (List.mem_append_right _ (List.mem_map_of_mem _ hmiss2))
      exact ⟨⟨⟨mo, 0, 0, 0⟩, hfill, rfl⟩, fun _ => hfill⟩
  · have hg : ((transitGrouped db).map (fun r => r.mode)).Nodup :=
      (transitGrouped_modes_perm db).nodup_iff.mpr (List.nodup_dedup _)
    unfold calculate_crimes_near_transit
    split_ifs with h0 hmiss
    · simp
    · exact hg
    · have hperm := (sortByBool_perm
        (fun a b => decide (b.crime_count ≤ a.crime_count))
        (transitGrouped db ++ (transitMissing db).map (fun m =>
          (⟨m, 0, 0, 0⟩ : ModeRow)))).map (fun r => r.mode)
      rw [List.map_append] at hperm
      have efill : (((transitMissing db).map (fun m =>
          (⟨m, 0, 0, 0⟩ : ModeRow))).map (fun r => r.mode)) = transitMissing db := by
        rw [List.map_map]
        exact (List.map_congr_left (fun m _ => rfl)).trans (map_fun_id _)
      rw [efill] at hperm
      refine hperm.nodup_iff.mpr ?_
      rw [List.nodup_append]
      refine ⟨hg, List.Nodup.filter _ (by decide), ?_⟩
      intro a ha ha2
      exact (of_decide_eq_true (List.mem_filter.mp ha2).2) ha

/-- Witness for `grouped_outputs_zero_fill` on a database with one weather
row (category `"Clear"`) and one tube stop. -/
def c7WeatherRow : WeatherRow :=
  { weather_id := 1, location_id := none, date := none, temp_c := none,
    temp_min_c := none, temp_max_c := none, precip_mm := none,
    wind_speed := none, humidity := none, weather_main := some "Clear" }

def c7Stop : TransitRow :=
  { stop_id := 1, naptan_id := some "S1", common_name := none,
    stop_type := some "NaptanMetroStation", modes := some "tube",
    lat := none, lon := none }

def c7Db : DB :=
  { emptyDB with weatherData := [c7WeatherRow], transitStops := [c7Stop] }

theorem grouped_outputs_zero_fill_witness :
    (∃ r ∈ calculate_crimes_by_weather c7Db, r.weather_main = some "Clear" ∧
      r.total_crimes = 0 ∧ r.avg_crimes_per_day = 0) ∧
    (∃ r ∈ calculate_crimes_near_transit c7Db, r.mode = "tube") ∧
    (⟨"rail", 0, 0, 0⟩ : ModeRow) ∈ calculate_crimes_near_transit c7Db := by
  obtain ⟨h1, h2, h3, -, -, -⟩ := grouped_outputs_zero_fill c7Db
  have hclear : some "Clear" ∈
      (calculate_crimes_by_weather c7Db).map (fun r => r.weather_main) :=
    (calculate_crimes_by_weather_keys_perm c7Db).mem_iff.mpr (by decide)
  obtain ⟨r, hr, hrm⟩ := List.mem_map.mp hclear
  have hz := h2 r hr (fun c hc => absurd hc (List.not_mem_nil c))
  have hrail : "rail" ∉ (transitGrouped c7Db).map (fun r => r.mode) := by
    rw [(transitGrouped_modes_perm c7Db).mem_iff]
    decide
  exact ⟨⟨r, hr, hrm, hz.1, hz.2⟩,
    (h3 (by decide) "tube" (by decide)).1,
    (h3 (by decide) "rail" (by decide)).2 hrail⟩

/-! ## C8 — adapter error boundaries -/

/-- C8 counterexample: a 500 reply to the reverse-geocode call is not
converted to a zero-result — `reverse_geocode` has no handler, so the
`raise_for_status` exception propagates out of the adapter (and its
callers `geocode_and_attach_locations`/`main` do not catch either). -/
theorem reverse_geocode_propagates_http_error :
    reverse_geocode 0 0 { status := 500, addresses := [] } =
      Except.error "HTTPError" := by
  rfl

/-- C8 amended: the transit adapter converts a request failure to the
zero-result `(db, 0)`; the geocode adapter converts nothing — any 4xx/5xx
reply propagates as an exception; and the crime adapter catches all
failures but substitutes the bundled sample payload rather than a zero
result. -/
theorem adapter_error_boundaries {α : Type} (e : String) (db : DB) (m : Nat)
    (lat lon : ℚ) (resp : GeoResponse) (sample : List α)
    (h400 : 400 ≤ resp.status) (h600 : resp.status < 600) :
    fetch_transit_stops (Except.error e) db m = (db, 0) ∧
    reverse_geocode lat lon resp = Except.error "HTTPError" ∧
    fetch_crimes_poly (Except.error e) sample = sample := by
  refine ⟨rfl, ?_, rfl⟩
  simp only [reverse_geocode]
  rw [if_pos ⟨h400, h600⟩]

/-- Witness for `adapter_error_boundaries` at a concrete failed request
and a concrete 500 reply. -/
theorem adapter_error_boundaries_witness :
    fetch_transit_stops (Except.error "boom") emptyDB 25 = (emptyDB, 0) ∧
    reverse_geocode 0 0 { status := 500, addresses := [] } =
      Except.error "HTTPError" ∧
    fetch_crimes_poly (Except.error "boom") ([] : List Nat) = [] :=
  adapter_error_boundaries "boom" emptyDB 25 0 0
    { status := 500, addresses := [] } [] (by decide) (by decide)

/-! ## C1 — date derivation: determinism, range, February scenario -/

theorem daysInMonth_pos (y m : Nat) : 0 < daysInMonth y m := by
  unfold daysInMonth
  split_ifs <;> omega

/-- C1: `derive_crime_date` is a pure function (identical month and seed
yield the identical result), on every validly parsed month `1 ≤ m ≤ 12` it
returns a date of that month whose day lies in `[1, days_in_month]`, and
concretely `derive_crime_date("2023-02", "X")` is `2023-02-17`, inside
`[2023-02-01, 2023-02-28]`. -/
theorem derive_crime_date_deterministic_and_in_range (ms : String)
    (seed : Option String) (y m : Nat) (hp : parseMonth ms = some (y, m))
    (h1 : 1 ≤ m) (h2 : m ≤ 12) :
    (∀ ms2 seed2, ms2 = ms → seed2 = seed →
      derive_crime_date (some ms2) seed2 = derive_crime_date (some ms) seed) ∧
    (∃ d, 1 ≤ d ∧ d ≤ daysInMonth y m ∧
      derive_crime_date (some ms) seed = some (formatDate y m d)) ∧
    derive_crime_date (some "2023-02") (some "X") = some "2023-02-17" := by
  refine ⟨fun ms2 seed2 hm hs => by rw [hm, hs], ?_, by decide⟩
  have hne : ms ≠ "" := by
    intro h
    have hempty : parseMonth "" = none := by decide
    rw [h, hempty] at hp
    exact Option.noConfusion hp
  simp only [derive_crime_date, hp]
  rw [if_neg hne, if_pos (⟨h1, h2⟩ : 1 ≤ m ∧ m ≤ 12)]
  refine ⟨_, Nat.succ_le_succ (Nat.zero_le _),
    Nat.succ_le_of_lt (Nat.mod_lt _ (daysInMonth_pos y m)), rfl⟩

/-- Witness for `derive_crime_date_deterministic_and_in_range` at the
spec's concrete scenario month `"2023-02"` and seed `"X"`. -/
theorem derive_crime_date_range_witness :
    parseMonth "2023-02" = some (2023, 2) ∧
    (∃ d, 1 ≤ d ∧ d ≤ daysInMonth 2023 2 ∧
      derive_crime_date (some "2023-02") (some "X") = some (formatDate 2023 2 d)) :=
  ⟨by decide,
   (derive_crime_date_deterministic_and_in_range "2023-02" (some "X") 2023 2
     (by decide) (by decide) (by decide)).2.1⟩

end Pipeline
